import Mathlib

/-!
Verification of the zspy plugin (`src/hyperspy/io_plugins/zspy.py`).

The file embeds, as executable Lean definitions, the pieces of `zspy.py`
that the checked properties talk about:

* the chunk planner `_get_signal_chunks` (zspy.py lines 92-112);
* the dataset materializer `_store_data` (lines 115-140) and
  `get_object_dset` (lines 78-89), embedded as functions that return the
  sequence of store effects the Python code performs;
* the store-facing part of `file_writer` (lines 182-198): root creation,
  root attributes, experiment-group naming;
* the metadata-facing part of `file_writer` (lines 200-214): the transient
  `record_by` field around the writer invocation;
* `file_reader` (lines 217-237): the newer-version warning;
* the Type Codec of the hierarchical base, which is not part of the given
  sources and is therefore modelled from the specification.

External zarr library behaviour that the Python code relies on is embedded
where the code calls it: `zarr.group(store, overwrite=True)` clears the
target, `zarr.open(filename)` (default mode `a`) keeps existing contents,
and `Group.create_group` raises `ContainsGroupError` when the group is
already present.
-/

namespace Zspy

/-- Element types of the arrays handled by the plugin, with `numpy` item
sizes.  `object` is numpy's `dtype('O')`. -/
inductive Dtype where
  | float64 | float32 | int64 | uint8 | object
deriving DecidableEq

/-- Item size in bytes of each dtype (`np.dtype(dtype).itemsize`);
object arrays store 8-byte pointers on the platforms hyperspy targets. -/
def itemsize : Dtype → Nat
  | .float64 => 8
  | .float32 => 4
  | .int64 => 8
  | .uint8 => 1
  | .object => 8

/-- Embedding of `_get_signal_chunks` (zspy.py lines 92-112).  The Python
function returns `None` when `signal_axes is None`, computes
`total_size = np.prod(shape) * typesize` and returns `None` when
`total_size < 1e8`; after that `if` the function body ends, so Python's
implicit fall-through returns `None` as well: the final `none` below is
that implicit return. -/
def _get_signal_chunks (shape : List Nat) (dtype : Dtype)
    (signal_axes : Option (List Nat)) : Option (List Nat) :=
  match signal_axes with
  | none => none
  | some _ =>
    let total_size := shape.prod * itemsize dtype
    if total_size < 100000000 then none
    else none

/-- Character-wise embedding of `group_name.replace("/", "-")`
(zspy.py line 197); the pattern is a single character, so Python's
`str.replace` is a per-character map. -/
def replaceSlash (cs : List Char) : List Char :=
  cs.map (fun c => if c = '/' then '-' else c)

/-- Embedding of zspy.py lines 196-197: `if "/" in group_name:
group_name = group_name.replace("/", "-")`. -/
def sanitizeGroupName (g : String) : String :=
  if '/' ∈ g.toList then (replaceSlash g.toList).asString else g

/-- Embedding of zspy.py lines 193-197: the experiment subgroup is named
by `signal.metadata.General.title`, falling back to `"__unnamed__"` when
the title is falsy (for a string: empty), then `/` is replaced by `-`. -/
def group_name (title : String) : String :=
  sanitizeGroupName (if title = "" then "__unnamed__" else title)

/-- Writer version string, `from hyperspy.io_plugins.hspy import version`
(zspy.py line 28).  `hspy.py` is not part of the given sources; the exact
value is irrelevant to the properties proved here. -/
def version : String := "3.1"

/-- The in-memory `signal.metadata.Signal` node, reduced to the fields the
checked property observes: the transient `record_by` entry and the
remaining entries, which `file_writer` never touches. -/
structure SignalMetadata where
  record_by : Option String
  other : List (String × String)
deriving DecidableEq

/-- The value assigned to `smd.record_by` by zspy.py lines 202-207:
`"spectrum"` for signal dimension 1, `"image"` for 2, `""` otherwise. -/
def record_by_for (signal_dimension : Nat) : String :=
  if signal_dimension = 1 then "spectrum"
  else if signal_dimension = 2 then "image"
  else ""

/-- Embedding of zspy.py lines 200-214, the metadata-facing part of
`file_writer`.  `write` stands for `ZspyWriter(f, signal, expg, **kwds)`
followed by `writer.write()`; it receives the metadata as the writer sees
it (after the injection) and yields either `()` or the raised exception.
The `try`/`except BaseException: raise`/`finally: del smd.record_by`
construct re-raises any exception unmodified and deletes `record_by` on
every path, which the embedding renders by pairing the outcome of `write`
with the metadata after the guaranteed deletion. -/
def file_writer_record_by {E : Type} (signal_dimension : Nat) (md : SignalMetadata)
    (write : SignalMetadata → Except E Unit) : Except E Unit × SignalMetadata :=
  let smd : SignalMetadata := { md with record_by := some (record_by_for signal_dimension) }
  let result := write smd
  (result, { smd with record_by := none })

/-- The warning text of zspy.py lines 232-236. -/
def newer_version_warning : String :=
  "This file was written using a newer version of the HyperSpy zspy file format. I will attempt to load it, but, if I fail, it is likely that I will be more successful at this and other tasks if you upgrade me."

/-- Lexicographic comparison of dotted version numbers, as performed by
`reader.version > version` in zspy.py line 231 (the parsed components of
the stored `file_format_version` against the writer's own version). -/
def versionLt : List Nat → List Nat → Bool
  | [], [] => false
  | [], _ :: _ => true
  | _ :: _, [] => false
  | a :: as, b :: bs => if a < b then true else if b < a then false else versionLt as bs

/-- What `file_reader` produces: the warnings it emitted and the payload
returned by `reader.read(lazy=lazy)`. -/
structure ReadOutcome (P : Type) where
  warnings : List String
  payload : P
deriving DecidableEq

/-- Embedding of `file_reader` (zspy.py lines 217-237).  `stored_version`
is the file's root `file_format_version` as exposed by the reader,
`current_version` the module's own `version`; `read` stands for
`reader.read`.  The version check only appends a warning — the read is
performed unconditionally afterwards. -/
def file_reader {P : Type} (stored_version current_version : List Nat)
    (read : Bool → P) (lazy : Bool) : ReadOutcome P :=
  { warnings := if versionLt current_version stored_version then [newer_version_warning] else []
    payload := read lazy }

/-- State of a zarr root: root attributes plus the set of group/dataset
paths present below the root.  Attribute assignment is modelled by
prepending; `List.lookup` then returns the most recent binding, which is
the mapping behaviour of zarr attributes. -/
structure ZarrRoot where
  attrs : List (String × String)
  keys : List (List String)
deriving DecidableEq

/-- zarr error relevant here: `Group.create_group` raises
`ContainsGroupError` when the path already holds a group. -/
inductive WriteErr where
  | containsGroup
deriving DecidableEq

/-- Embedding of zarr `Group.create_group` (no overwrite flag): fails when
the path is already present, else records it. -/
def create_group (keys : List (List String)) (path : List String) :
    Except WriteErr (List (List String)) :=
  if path ∈ keys then .error .containsGroup else .ok (path :: keys)

/-- Embedding of the store-facing part of `file_writer`
(zspy.py lines 182-198) over a `ZarrRoot` state `s` holding whatever a
previous save left at the target path.

* lines 185-189: with `write_to_storage` truthy the root is
  `zarr.open(filename)` (default mode `a` — existing contents kept);
  otherwise `zarr.group(store, overwrite=True)` yields a cleared root;
* lines 190-191: the two root attributes are assigned;
* line 192: `f.create_group('Experiments')`;
* lines 193-198: the experiment subgroup named by `group_name`.

`writeTree` stands for `ZspyWriter(f, signal, expg, **kwds).write()`: it
receives the experiment-group path and adds the signal's tree to the keys
(the hierarchical writer works below `expg` and does not touch root
attributes).  A raised `ContainsGroupError` propagates; the state mutated
so far remains, as it does on disk. -/
def file_writer_store (write_to_storage : Bool) (title : String)
    (writeTree : List String → List (List String) → List (List String))
    (s : ZarrRoot) : Option WriteErr × ZarrRoot :=
  let f0 : ZarrRoot := if write_to_storage then s else { attrs := [], keys := [] }
  let a := ("file_format_version", version) :: ("file_format", "ZSpy") :: f0.attrs
  match create_group f0.keys ["Experiments"] with
  | .error e => (some e, { attrs := a, keys := f0.keys })
  | .ok k1 =>
    match create_group k1 ["Experiments", group_name title] with
    | .error e => (some e, { attrs := a, keys := k1 })
    | .ok k2 => (none, { attrs := a, keys := writeTree ["Experiments", group_name title] k2 })

/-- A concrete stand-in for `ZspyWriter(...).write()`: it stores the
signal's `data` dataset below the experiment group. -/
def sampleWriteTree (expg : List String) (keys : List (List String)) :
    List (List String) :=
  (expg ++ ["data"]) :: keys

/-- Handle of the target dataset passed to `_store_data` (`dset`): its
path below the store directory and its chunk shape. -/
structure DsetHandle where
  path : String
  chunks : List Nat
deriving DecidableEq

/-- A numpy source array as `_store_data` distinguishes them: object dtype
(`data.dtype == np.dtype('O')`) or dense. -/
inductive NpData where
  | objArr (shape : List Nat)
  | dense (shape : List Nat) (dtype : Dtype)
deriving DecidableEq

/-- The `data` argument of `_store_data`: a dask array (with its intrinsic
chunking) or a numpy array. `isinstance(data, da.Array)` is tested first,
then the object-dtype test, then the dense fallback. -/
inductive DataArg where
  | daskArr (chunks : List Nat)
  | np (d : NpData)
deriving DecidableEq

/-- One store-visible step performed by `_store_data`:
`rechunk` is `data.rechunk(dset.chunks)`; `to_zarr` is
`da.Array.to_zarr(url=path, overwrite=True)`, the backing store's native
bulk-write entry point; `assign_elements` is `group[key][:] = data[:]`;
`open_array_write` is `zarr.open_array(path, mode="w", shape, dtype,
chunks)` followed by `dset[:] = data`. -/
inductive StoreEffect where
  | rechunk (oldChunks newChunks : List Nat)
  | to_zarr (url : String) (overwrite : Bool)
  | assign_elements (key : String)
  | open_array_write (url : String) (shape : List Nat) (dtype : Dtype)
      (chunks : Option (List Nat))
deriving DecidableEq

/-- True exactly on the native bulk-write step (`to_zarr`). -/
def isBulkWrite : StoreEffect → Bool
  | .to_zarr _ _ => true
  | _ => false

/-- Embedding of `_store_data` (zspy.py lines 115-140) as the sequence of
store effects the call performs.  `group_store_path` is
`group._store.dir_path()`. -/
def _store_data (data : DataArg) (dset : DsetHandle) (group_store_path : String)
    (key : String) (chunks : Option (List Nat)) : List StoreEffect :=
  match data with
  | .daskArr dchunks =>
    (if dchunks ≠ dset.chunks then [.rechunk dchunks dset.chunks] else [])
      ++ [.to_zarr (group_store_path ++ "/" ++ dset.path) true]
  | .np (.objArr _) => [.assign_elements key]
  | .np (.dense shape dt) =>
    [.open_array_write (group_store_path ++ "/" ++ dset.path) shape dt chunks]

/-- The object codecs the plugin configures on datasets. -/
inductive ObjectCodec where
  | vlenArrayInt
  | json
deriving DecidableEq

/-- The dataset request issued by `get_object_dset` through
`group.require_dataset`. -/
structure DsetReq where
  key : String
  shape : List Nat
  dtype : Dtype
  chunks : Option (List Nat)
  object_codec : ObjectCodec
  exact : Bool
deriving DecidableEq

/-- Embedding of `get_object_dset` (zspy.py lines 78-89): the dataset is
requested at `data.shape` with `dtype=object`, `exact=True`, the given
`chunks` and `object_codec=numcodecs.VLenArray(int)`. -/
def get_object_dset (data_shape : List Nat) (key : String)
    (chunks : Option (List Nat)) : DsetReq :=
  { key := key
    shape := data_shape
    dtype := .object
    chunks := chunks
    object_codec := .vlenArrayInt
    exact := true }

/-- Modelled from the spec: the in-memory values handled by the Type Codec
of the hierarchical base (`hyperspy/io_plugins/hierarchical.py`, absent
from the given sources), section 4.1 of the specification: unicode
strings, byte strings, booleans, None, lists and tuples (nested, possibly
empty).  A byte string is represented by its UTF-8 decoding, which is
what the decode path produces from it. -/
inductive PyVal where
  | str (s : String)
  | bytes (s : String)
  | bool (b : Bool)
  | none
  | list (xs : List PyVal)
  | tuple (xs : List PyVal)

/-- Modelled from the spec: the container tag stored alongside an encoded
list or tuple so decode can "recover the original container kind". -/
inductive ContTag where
  | listTag | tupleTag
deriving DecidableEq

/-- Modelled from the spec: the native representations a hierarchical
array store can hold — variable-length strings, native booleans, a native
None marker, and tagged object arrays of encoded elements (a zero-length
such array is the "zero-length typed placeholder" for empty
containers). -/
inductive StoredVal where
  | vstr (s : String)
  | vbool (b : Bool)
  | vnone
  | varr (tag : ContTag) (xs : List StoredVal)

mutual

/-- Modelled from the spec: the Type Codec's encode direction — unicode
text as a variable-length string, byte strings stored so that the read
side yields their UTF-8 text, booleans and None as native attributes,
lists and tuples recursively as tagged object arrays. -/
def encode : PyVal → StoredVal
  | .str s => .vstr s
  | .bytes s => .vstr s
  | .bool b => .vbool b
  | .none => .vnone
  | .list xs => .varr .listTag (encodeList xs)
  | .tuple xs => .varr .tupleTag (encodeList xs)

/-- Element-wise encoding of a container's contents. -/
def encodeList : List PyVal → List StoredVal
  | [] => []
  | x :: xs => encode x :: encodeList xs

end

mutual

/-- Modelled from the spec: the Type Codec's decode direction — inverse of
`encode`, dispatching on the stored tag; a tagged zero-length array
reconstructs the exact empty container. -/
def decode : StoredVal → PyVal
  | .vstr s => .str s
  | .vbool b => .bool b
  | .vnone => .none
  | .varr .listTag xs => .list (decodeList xs)
  | .varr .tupleTag xs => .tuple (decodeList xs)

/-- Element-wise decoding of a container's contents. -/
def decodeList : List StoredVal → List PyVal
  | [] => []
  | x :: xs => decode x :: decodeList xs

end

mutual

/-- True on values containing no byte string at any depth — the values for
which the round trip is claimed to be exact. -/
def bytesFree : PyVal → Bool
  | .str _ => true
  | .bytes _ => false
  | .bool _ => true
  | .none => true
  | .list xs => bytesFreeList xs
  | .tuple xs => bytesFreeList xs

/-- `bytesFree` on every element of a list. -/
def bytesFreeList : List PyVal → Bool
  | [] => true
  | x :: xs => bytesFree x && bytesFreeList xs

end

/-! Helper lemmas. -/

/-- Rebuilding a string from its character list is the identity. -/
theorem asString_toList (s : String) : s.toList.asString = s := rfl

/-- `replaceSlash` leaves a slash-free character list unchanged. -/
theorem replaceSlash_of_not_mem (cs : List Char) (h : '/' ∉ cs) :
    replaceSlash cs = cs := by
  unfold replaceSlash
  induction cs with
  | nil => rfl
  | cons c cs ih =>
    have hc : c ≠ '/' := by
      intro hc
      exact h (hc ▸ List.mem_cons_self c cs)
    have hcs : '/' ∉ cs := fun hm => h (List.mem_cons_of_mem c hm)
    simp [ih hcs, if_neg hc]

/-- No character of a `replaceSlash` image is a slash. -/
theorem replaceSlash_all (cs : List Char) :
    ((replaceSlash cs).all fun c => c != '/') = true := by
  simp [replaceSlash, List.all_map, List.all_eq_true]
  intro a _
  split <;> simp_all

/-- No character of a sanitized group name is a slash. -/
theorem sanitizeGroupName_all (g : String) :
    ((sanitizeGroupName g).toList.all fun c => c != '/') = true := by
  unfold sanitizeGroupName
  split
  · rw [show (replaceSlash g.toList).asString.toList = replaceSlash g.toList from rfl]
    exact replaceSlash_all _
  · rename_i h
    simp [List.all_eq_true]
    intro a ha h2
    subst h2
    exact h ha

/-- `sanitizeGroupName` agrees with unconditional slash replacement. -/
theorem sanitizeGroupName_eq (g : String) :
    sanitizeGroupName g = (replaceSlash g.toList).asString := by
  unfold sanitizeGroupName
  split
  · rfl
  · rename_i h
    rw [replaceSlash_of_not_mem g.toList h, asString_toList]

mutual

/-- The modelled Type Codec round-trips every byte-free value. -/
theorem decode_encode (v : PyVal) (h : bytesFree v = true) : decode (encode v) = v :=
  match v, h with
  | .str _, _ => rfl
  | .bytes _, h => by simp [bytesFree] at h
  | .bool _, _ => rfl
  | .none, _ => rfl
  | .list xs, h => by
      have h' : bytesFreeList xs = true := by simpa [bytesFree] using h
      simp [encode, decode, decodeList_encodeList xs h']
  | .tuple xs, h => by
      have h' : bytesFreeList xs = true := by simpa [bytesFree] using h
      simp [encode, decode, decodeList_encodeList xs h']

/-- Element-wise round trip for containers of byte-free values. -/
theorem decodeList_encodeList (xs : List PyVal) (h : bytesFreeList xs = true) :
    decodeList (encodeList xs) = xs :=
  match xs, h with
  | [], _ => rfl
  | x :: xs, h => by
      have h1 : bytesFree x = true ∧ bytesFreeList xs = true := by
        simpa [bytesFreeList, Bool.and_eq_true] using h
      simp [encodeList, decodeList, decode_encode x h1.1, decodeList_encodeList xs h1.2]

end

/-! Claim theorems. -/

/-- C1.  Evaluation of the chunk planner at an input above the 1e8-byte
threshold with a designated signal axis: `product(shape) * itemsize` is
100000000 bytes, yet `_get_signal_chunks` returns `none`.  The Python
function body ends right after the small-size early return, so control
falls off the end and every large input yields `None`, contradicting the
function's own docstring ("calculates chunks for the signal, preferably
at least one chunk per signal space") and the claim. -/
theorem get_signal_chunks_large_input_returns_none :
    ([12500000] : List Nat).prod * itemsize Dtype.float64 ≥ 100000000
    ∧ _get_signal_chunks [12500000] Dtype.float64 (some [0]) = none := by
  constructor
  · decide
  · rfl

/-- C2.  `file_writer` injects `metadata.Signal.record_by` before invoking
the writer ("spectrum" for signal dimension 1, "image" for 2, "" else),
the writer sees the injected value, every other metadata entry is left
untouched, the field is deleted again on success and on failure alike,
and the writer's outcome — in particular any raised exception — is
propagated unmodified. -/
theorem file_writer_record_by_transient {E : Type} (sd : Nat) (md : SignalMetadata)
    (write : SignalMetadata → Except E Unit) :
    (file_writer_record_by sd md write).2.record_by = none
    ∧ (file_writer_record_by sd md write).2.other = md.other
    ∧ (file_writer_record_by sd md write).1
        = write { md with
              record_by := some
                (if sd = 1 then "spectrum" else if sd = 2 then "image" else "") } := by
  refine ⟨rfl, rfl, ?_⟩
  rfl

/-- C3.  When the stored `file_format_version` is newer than the reader's
own version, `file_reader` emits exactly the warning and still returns
the payload of `reader.read(lazy)`; and the payload is returned for every
version relation — a newer version never causes a refusal. -/
theorem file_reader_newer_version_warns_and_reads {P : Type}
    (stored current : List Nat) (read : Bool → P) (lazy : Bool) :
    (versionLt current stored = true →
      (file_reader stored current read lazy).warnings = [newer_version_warning])
    ∧ (file_reader stored current read lazy).payload = read lazy := by
  constructor
  · intro h
    simp [file_reader, h]
  · rfl

/-- Witness for C3 at stored version 2 against reader version 1. -/
theorem file_reader_newer_version_warns_and_reads_witness :
    (file_reader [2] [1] (fun _ => (7 : Nat)) false).warnings = [newer_version_warning]
    ∧ (file_reader [2] [1] (fun _ => (7 : Nat)) false).payload = 7 :=
  ⟨(file_reader_newer_version_warns_and_reads [2] [1] (fun _ => (7 : Nat)) false).1 (by decide),
   (file_reader_newer_version_warns_and_reads [2] [1] (fun _ => (7 : Nat)) false).2⟩

/-- C4 counterexample.  A first save (fresh path, title "A") followed by a
second `file_writer` call on the same path with `write_to_storage` set:
the second call raises `ContainsGroupError` on the already existing
`Experiments` group and the group `Experiments/A` — present only in the
first save's tree — is still present afterwards, so the claim's "every
call of file_writer destroys the prior contents" fails on the
`write_to_storage` branch, which opens the root without overwrite. -/
theorem file_writer_overwrite_counterexample :
    (file_writer_store true "B" sampleWriteTree
        (file_writer_store false "A" sampleWriteTree ⟨[], []⟩).2).1
      = some WriteErr.containsGroup
    ∧ ["Experiments", "A"] ∈
        (file_writer_store true "B" sampleWriteTree
          (file_writer_store false "A" sampleWriteTree ⟨[], []⟩).2).2.keys := by
  constructor
  · rfl
  · decide

/-- C4 amended.  Every `file_writer` call that does not request
`write_to_storage` creates the root group fresh: its outcome and final
store state are those of the same save performed on an empty path, so
prior contents at the target are destroyed, never merged, and keys
present only in an earlier save's tree are absent afterwards. -/
theorem file_writer_fresh_root_without_write_to_storage (title : String)
    (writeTree : List String → List (List String) → List (List String))
    (s : ZarrRoot) :
    file_writer_store false title writeTree s
      = file_writer_store false title writeTree ⟨[], []⟩ := rfl

/-- C5.  Every completing `file_writer` call leaves the root group
carrying the format tag attribute `file_format = "ZSpy"` and the version
attribute `file_format_version = version`. -/
theorem file_writer_root_format_attrs (write_to_storage : Bool) (title : String)
    (writeTree : List String → List (List String) → List (List String))
    (s : ZarrRoot)
    (h : (file_writer_store write_to_storage title writeTree s).1 = none) :
    List.lookup "file_format"
        (file_writer_store write_to_storage title writeTree s).2.attrs = some "ZSpy"
    ∧ List.lookup "file_format_version"
        (file_writer_store write_to_storage title writeTree s).2.attrs = some version := by
  unfold file_writer_store
  cases hc1 : create_group (if write_to_storage then s else ⟨[], []⟩).keys ["Experiments"] with
  | error e => simp [file_writer_store, hc1] at h
  | ok k1 =>
    cases hc2 : create_group k1 ["Experiments", group_name title] with
    | error e => simp [file_writer_store, hc1, hc2] at h
    | ok k2 => simp [hc1, hc2, List.lookup]

/-- Witness for C5: a completing save on a fresh path carries both
attributes. -/
theorem file_writer_root_format_attrs_witness :
    (file_writer_store false "t" sampleWriteTree ⟨[], []⟩).1 = none
    ∧ List.lookup "file_format"
        (file_writer_store false "t" sampleWriteTree ⟨[], []⟩).2.attrs = some "ZSpy"
    ∧ List.lookup "file_format_version"
        (file_writer_store false "t" sampleWriteTree ⟨[], []⟩).2.attrs = some version :=
  ⟨rfl,
   (file_writer_root_format_attrs false "t" sampleWriteTree ⟨[], []⟩ rfl).1,
   (file_writer_root_format_attrs false "t" sampleWriteTree ⟨[], []⟩ rfl).2⟩

/-- C6.  The modelled Type Codec round-trips every byte-free value of the
listed kinds exactly — including the exact container type of the empty
list and empty tuple, which are distinct byte-free values — while a byte
string comes back as its UTF-8 text, a `str` value, not the original
`bytes` value. -/
theorem type_codec_roundtrip (v : PyVal) (s : String) :
    (bytesFree v = true → decode (encode v) = v)
    ∧ decode (encode (PyVal.bytes s)) = PyVal.str s :=
  ⟨decode_encode v, rfl⟩

/-- Witness for C6 on a nested list-of-tuples containing both empty
containers, and on a concrete byte string. -/
theorem type_codec_roundtrip_witness :
    decode (encode (PyVal.list [PyVal.tuple [], PyVal.list [],
        PyVal.tuple [PyVal.str "a", PyVal.bool true, PyVal.none]]))
      = PyVal.list [PyVal.tuple [], PyVal.list [],
        PyVal.tuple [PyVal.str "a", PyVal.bool true, PyVal.none]]
    ∧ decode (encode (PyVal.bytes "b")) = PyVal.str "b" :=
  ⟨(type_codec_roundtrip (PyVal.list [PyVal.tuple [], PyVal.list [],
      PyVal.tuple [PyVal.str "a", PyVal.bool true, PyVal.none]]) "b").1 (by decide),
   (type_codec_roundtrip (PyVal.list []) "b").2⟩

/-- C7.  The chunk planner defers to the backing store's default chunking
(`none`) whenever no signal axes are designated, and also whenever
`product(shape) * itemsize(dtype)` is below the 1e8-byte threshold even
with signal axes given. -/
theorem get_signal_chunks_default_cases (shape : List Nat) (dtype : Dtype)
    (axes : List Nat) :
    _get_signal_chunks shape dtype none = none
    ∧ (shape.prod * itemsize dtype < 100000000 →
        _get_signal_chunks shape dtype (some axes) = none) := by
  constructor
  · rfl
  · intro h
    simp [_get_signal_chunks, h]

/-- Witness for C7 at a 800-byte array with a signal axis. -/
theorem get_signal_chunks_default_cases_witness :
    _get_signal_chunks [10, 10] Dtype.float64 none = none
    ∧ _get_signal_chunks [10, 10] Dtype.float64 (some [0]) = none :=
  ⟨(get_signal_chunks_default_cases [10, 10] Dtype.float64 [0]).1,
   (get_signal_chunks_default_cases [10, 10] Dtype.float64 [0]).2 (by decide)⟩

/-- C8.  On a dask source, `_store_data` re-partitions the array to the
target dataset's chunk shape exactly when the intrinsic chunking differs,
then writes through the store's native bulk-write path (`to_zarr`) at the
target location with `overwrite=True`; and no numpy source — dense or
object-typed — ever performs the bulk-write step. -/
theorem store_data_lazy_path (dchunks : List Nat) (dset : DsetHandle)
    (gsp key : String) (chunks : Option (List Nat)) (d : NpData) :
    _store_data (.daskArr dchunks) dset gsp key chunks
      = (if dchunks = dset.chunks then [] else [.rechunk dchunks dset.chunks])
        ++ [.to_zarr (gsp ++ "/" ++ dset.path) true]
    ∧ ((_store_data (.np d) dset gsp key chunks).all fun e => !(isBulkWrite e)) = true := by
  constructor
  · by_cases h : dchunks = dset.chunks <;> simp [_store_data, h]
  · cases d <;> simp [_store_data, isBulkWrite]

/-- C9.  The dataset prepared for a ragged source is requested with object
dtype, the `VLenArray(int)` object codec, the source's shape, the
requested chunks and `exact=True`, and `_store_data` on an object-typed
source performs exactly the element-wise assignment into that dataset —
no re-chunking and no chunk re-planning step appears. -/
theorem object_dset_ragged_store (shape : List Nat) (key : String)
    (chunks : Option (List Nat)) (dset : DsetHandle) (gsp : String) :
    (get_object_dset shape key chunks).dtype = Dtype.object
    ∧ (get_object_dset shape key chunks).object_codec = ObjectCodec.vlenArrayInt
    ∧ (get_object_dset shape key chunks).shape = shape
    ∧ (get_object_dset shape key chunks).chunks = chunks
    ∧ (get_object_dset shape key chunks).exact = true
    ∧ _store_data (.np (.objArr shape)) dset gsp key chunks
        = [StoreEffect.assign_elements key] :=
  ⟨rfl, rfl, rfl, rfl, rfl, rfl⟩

/-- C10.  The experiment subgroup is named by the signal's title with
every "/" replaced by "-", falls back to "__unnamed__" on an empty title,
and therefore never contains a "/" character. -/
theorem file_writer_experiment_group_name (title : String) :
    group_name title
      = (if title = "" then "__unnamed__" else (replaceSlash title.toList).asString)
    ∧ ((group_name title).toList.all fun c => c != '/') = true := by
  constructor
  · unfold group_name
    split
    · rfl
    · exact sanitizeGroupName_eq title
  · exact sanitizeGroupName_all _

end Zspy
